import Mathlib

/-!
# Neural Forge — verification of the template-selection / simulated-latency core

Shallow embedding of the three panel controllers of the Neural Forge
single-page app (`IdeaGenerator`, `ResearchPanel`, `CodingPanel`) and proofs
about them.  Each panel follows the same pattern: pick a uniformly random
entry from a fixed template list, wait a randomized delay, publish the result
into per-panel component state.

Modelling conventions:
* `Math.random()` draws are passed in explicitly as a rational `r` with
  `0 ≤ r < 1`; `Math.floor` becomes `Int.toNat ∘ Int.floor`.
* A `setTimeout` callback is split off as an explicit "settle" function on the
  panel state; the synchronous part of the handler is its own function.
* `Date.now()` / `new Date()` are passed in as an explicit `now : Nat`.
* The JavaScript `Array.prototype.sort` with the random comparator always
  produces some rearrangement of the array, so the shuffled copy enters the
  settle step as an explicit list together with a `Perm` hypothesis.
-/

namespace NeuralForge

/-- One entry of the session log of the idea panel (interface `GeneratedIdea`).
`timestamp` is the epoch value of `new Date()`; `id` is `Date.now()`. -/
structure GeneratedIdea where
  id : Nat
  text : String
  category : String
  timestamp : Nat
  saved : Bool
  deriving DecidableEq

/-- Idea template list for category `tech` (from `ideaTemplates` in the source). -/
def techIdeas : List String :=
  ["An AI-powered tool that automatically generates documentation from code comments",
   "A browser extension that summarizes any webpage into key bullet points",
   "A smart home system that learns your habits and optimizes energy usage",
   "A decentralized file storage network using blockchain technology",
   "An AR app that overlays repair instructions on broken appliances",
   "A machine learning model that predicts software bugs before deployment",
   "A voice-controlled coding assistant for hands-free development",
   "A quantum computing simulator for educational purposes"]

/-- Idea template list for category `business`. -/
def businessIdeas : List String :=
  ["A subscription service for personalized vitamin packs based on DNA analysis",
   "An AI matchmaker for co-founders seeking business partners",
   "A platform connecting retired experts with startups needing mentorship",
   "A marketplace for renting out unused computing power",
   "A reverse auction platform where businesses bid for customer attention",
   "An automated bookkeeping service using receipt scanning and AI",
   "A B2B bartering platform for exchanging services without currency",
   "A fractional ownership platform for commercial real estate"]

/-- Idea template list for category `creative`. -/
def creativeIdeas : List String :=
  ["A collaborative music composition app where users build songs together",
   "An AI that generates unique fonts based on your handwriting",
   "A virtual reality museum where anyone can exhibit their art",
   "A procedural poetry generator that creates verses from daily news",
   "An app that transforms voice memos into illustrated storybooks",
   "A platform for commissioning custom soundtracks for your life events",
   "A tool that generates color palettes from any piece of music",
   "An AI filmmaker that creates short films from text descriptions"]

/-- Idea template list for category `science`. -/
def scienceIdeas : List String :=
  ["A citizen science app for cataloging local biodiversity through photos",
   "A simulation platform for testing theoretical physics experiments",
   "An AI assistant for analyzing astronomical data from amateur telescopes",
   "A molecular modeling tool for high school chemistry education",
   "A crowdsourced climate monitoring network using smartphone sensors",
   "A genetic ancestry visualization tool using 3D family trees",
   "An ocean exploration simulator based on real oceanographic data",
   "A neural network that predicts protein folding structures"]

/-- Idea template list for category `social`. -/
def socialIdeas : List String :=
  ["A platform connecting neighbors to share tools and equipment",
   "An app that organizes local skill-sharing workshops",
   "A service matching volunteers with elderly residents needing assistance",
   "A community garden management platform with plot allocation",
   "A local event discovery app based on your interests and schedule",
   "A carpooling network specifically for parents doing school runs",
   "A platform for organizing neighborhood watch programs",
   "An app connecting pet owners for mutual pet-sitting arrangements"]

/-- The Template Store of the idea panel, `ideaTemplates : Record<string, string[]>`.
Lookup of a key absent from the record yields `none` (`undefined` in JS). -/
def ideaTemplates (key : String) : Option (List String) :=
  if key = "tech" then some techIdeas
  else if key = "business" then some businessIdeas
  else if key = "creative" then some creativeIdeas
  else if key = "science" then some scienceIdeas
  else if key = "social" then some socialIdeas
  else none

/-- The selection step shared by all three panels:
`list[Math.floor(Math.random() * list.length)]`, with the `Math.random()`
draw `r` passed in explicitly.  Out-of-range indices yield `none`. -/
def selectUniform {α : Type} (l : List α) (r : ℚ) : Option α :=
  l.get? (Int.toNat ⌊r * (l.length : ℚ)⌋)

/-- Component state of `IdeaGenerator` (its four `useState` hooks). -/
structure IdeaState where
  selectedCategory : String
  ideas : List GeneratedIdea
  isGenerating : Bool
  customPrompt : String
  deriving DecidableEq

/-- Synchronous part of `generateIdea`: `setIsGenerating(true)` before the
`setTimeout` is scheduled. -/
def ideaGenStart (s : IdeaState) : IdeaState :=
  { s with isGenerating := true }

/-- The `setTimeout` callback of `generateIdea`: select a random template,
build the new `GeneratedIdea` (appending the custom-prompt annotation when
`customPrompt` is truthy, i.e. non-empty), prepend it to the log and clear
`isGenerating`.  `none` models the crash on a category key absent from the
Template Store. -/
def ideaSettle (s : IdeaState) (now : Nat) (r : ℚ) : Option IdeaState :=
  match ideaTemplates s.selectedCategory with
  | none => none
  | some categoryIdeas =>
    match selectUniform categoryIdeas r with
    | none => none
    | some randomIdea =>
      some { s with
        ideas := { id := now,
                   text := if s.customPrompt = "" then randomIdea
                           else randomIdea ++ " — customized for: \"" ++ s.customPrompt ++ "\"",
                   category := s.selectedCategory,
                   timestamp := now,
                   saved := false } :: s.ideas,
        isGenerating := false }

/-- Handler `toggleSaved`: flip the `saved` flag of every entry whose id matches. -/
def toggleSaved (ideas : List GeneratedIdea) (tid : Nat) : List GeneratedIdea :=
  ideas.map (fun idea => if idea.id = tid then { idea with saved := !idea.saved } else idea)

/-- Handler `deleteIdea`: remove every entry whose id matches. -/
def deleteIdea (ideas : List GeneratedIdea) (tid : Nat) : List GeneratedIdea :=
  ideas.filter (fun idea => idea.id != tid)

/-- The append performed inside the callback of `generateIdea`:
`setIdeas(prev => [newIdea, ...prev])` (most-recent-first prepend). -/
def prependIdea (ideas : List GeneratedIdea) (newIdea : GeneratedIdea) : List GeneratedIdea :=
  newIdea :: ideas

/-- The `[CLEAR_ALL]` handler: `setIdeas([])`, unconditionally. -/
def clearAllIdeas (_ideas : List GeneratedIdea) : List GeneratedIdea :=
  []

/-! ## Research panel (`ResearchPanel.tsx`) -/

/-- One entry of the fixed mock pool of the research panel (interface `ResearchResult`). -/
structure ResearchResult where
  id : Nat
  title : String
  summary : String
  source : String
  relevance : Nat
  category : String
  deriving DecidableEq

/-- The fixed five-element mock pool `mockResearchResults`. -/
def mockResearchResults : List ResearchResult :=
  [{ id := 1, title := "Neural Networks and Creative Problem Solving",
     summary := "Recent studies show that neural networks can assist in generating novel solutions by identifying patterns in large datasets that humans might overlook.",
     source := "AI Research Journal", relevance := 95, category := "AI/ML" },
   { id := 2, title := "Market Trends in Sustainable Technology",
     summary := "The sustainable tech market is projected to grow by 25% annually, with particular demand in energy storage and green computing solutions.",
     source := "Tech Market Analysis", relevance := 87, category := "MARKET" },
   { id := 3, title := "User Experience in Idea Generation Tools",
     summary := "Research indicates that tools with gamification elements increase user engagement and the quality of generated ideas by up to 40%.",
     source := "UX Research Quarterly", relevance := 82, category := "UX" },
   { id := 4, title := "Collaborative Innovation Frameworks",
     summary := "Open innovation frameworks that combine internal R&D with external idea sourcing show 3x higher success rates for breakthrough innovations.",
     source := "Innovation Management", relevance := 79, category := "STRATEGY" },
   { id := 5, title := "Patent Landscape Analysis: AI-Generated Content",
     summary := "The patent landscape for AI-generated content tools shows rapid growth, with 500+ patents filed in the last quarter alone.",
     source := "Patent Analytics DB", relevance := 74, category := "LEGAL" }]

/-- The JavaScript `String.prototype.trim` function: strip whitespace from both ends. -/
def jsTrim (s : String) : String :=
  ⟨((s.data.dropWhile Char.isWhitespace).reverse.dropWhile Char.isWhitespace).reverse⟩

/-- Component state of `ResearchPanel` (its four `useState` hooks), plus
`pendingTimer`, which models whether the `setTimeout` callback scheduled by
`performSearch` is still outstanding in the host timer queue. -/
structure ResearchState where
  query : String
  isSearching : Bool
  results : List ResearchResult
  expandedResult : Option Nat
  pendingTimer : Bool
  deriving DecidableEq

/-- Initial `ResearchPanel` state on mount. -/
def initResearch : ResearchState :=
  { query := "", isSearching := false, results := [], expandedResult := none,
    pendingTimer := false }

/-- Synchronous part of `performSearch`: bail out when the trimmed query is
empty (falsy); otherwise set `isSearching`, clear the results and schedule the
settle callback. -/
def performSearch (s : ResearchState) : ResearchState :=
  if jsTrim s.query = "" then s
  else { s with isSearching := true, results := [], pendingTimer := true }

/-- The `setTimeout` callback of `performSearch`: take a random-length prefix
(`3 + Math.floor(Math.random() * 3)` elements) of the shuffled copy of the
pool and publish it.  `shuffled` is the result of
`[...mockResearchResults].sort(() => Math.random() - 0.5)`; the random draw
for the slice length is `r`. -/
def searchSettle (s : ResearchState) (shuffled : List ResearchResult) (r : ℚ) : ResearchState :=
  { s with results := shuffled.take (3 + Int.toNat ⌊r * 3⌋),
           isSearching := false, pendingTimer := false }

/-- Event-step relation of the research panel: typing in the query input,
clicking SEARCH (or pressing Enter), the settle callback firing, and
expanding/collapsing a result. -/
inductive RStep : ResearchState → ResearchState → Prop
  | setQuery (s : ResearchState) (q : String) : RStep s { s with query := q }
  | search (s : ResearchState) : RStep s (performSearch s)
  | settle (s : ResearchState) (shuffled : List ResearchResult) (r : ℚ)
      (hperm : shuffled.Perm mockResearchResults) (h0 : 0 ≤ r) (h1 : r < 1)
      (hp : s.pendingTimer = true) : RStep s (searchSettle s shuffled r)
  | expand (s : ResearchState) (e : Option Nat) : RStep s { s with expandedResult := e }

/-- States of the research panel reachable from the mount state. -/
def ResearchReachable (s : ResearchState) : Prop :=
  Relation.ReflTransGen RStep initResearch s

/-! ## Coding panel (`CodingPanel`) -/

/-- One canned snippet of the coding panel (interface `CodeSnippet`). -/
structure CodeSnippet where
  id : Nat
  language : String
  title : String
  code : String
  description : String
  deriving DecidableEq

/-- Snippet list for key `react` (from `codeTemplates` in the source). -/
def reactTemplates : List CodeSnippet :=
  [{ id := 1, language := "tsx", title := "Custom Hook: useLocalStorage",
     code := "import \x7b useState, useEffect \x7d from \x27react\x27;\n\nfunction useLocalStorage<T>(key: string, initialValue: T) \x7b\n  const [storedValue, setStoredValue] = useState<T>(() => \x7b\n    try \x7b\n      const item = window.localStorage.getItem(key);\n      return item ? JSON.parse(item) : initialValue;\n    \x7d catch (error) \x7b\n      return initialValue;\n    \x7d\n  \x7d);\n\n  useEffect(() => \x7b\n    window.localStorage.setItem(key, JSON.stringify(storedValue));\n  \x7d, [key, storedValue]);\n\n  return [storedValue, setStoredValue] as const;\n\x7d",
     description := "A type-safe custom hook for persisting state to localStorage" },
   { id := 2, language := "tsx", title := "Debounced Search Component",
     code := "import \x7b useState, useEffect, useCallback \x7d from \x27react\x27;\n\nfunction DebouncedSearch(\x7b onSearch \x7d: \x7b onSearch: (q: string) => void \x7d) \x7b\n  const [query, setQuery] = useState(\x27\x27);\n\n  const debouncedSearch = useCallback(\n    debounce((q: string) => onSearch(q), 300),\n    [onSearch]\n  );\n\n  useEffect(() => \x7b\n    debouncedSearch(query);\n  \x7d, [query, debouncedSearch]);\n\n  return (\n    <input\n      value=\x7bquery\x7d\n      onChange=\x7b(e) => setQuery(e.target.value)\x7d\n      placeholder=\"Search...\"\n    />\n  );\n\x7d",
     description := "A search input component with built-in debouncing" }]

/-- Snippet list for key `python`. -/
def pythonTemplates : List CodeSnippet :=
  [{ id := 3, language := "python", title := "Async Data Fetcher",
     code := "import asyncio\nimport aiohttp\nfrom typing import List, Dict, Any\n\nasync def fetch_all(urls: List[str]) -> List[Dict[str, Any]]:\n    async with aiohttp.ClientSession() as session:\n        tasks = [fetch_one(session, url) for url in urls]\n        return await asyncio.gather(*tasks)\n\nasync def fetch_one(session: aiohttp.ClientSession, url: str):\n    async with session.get(url) as response:\n        return await response.json()\n\n# Usage: asyncio.run(fetch_all([\x27url1\x27, \x27url2\x27]))",
     description := "Concurrent HTTP requests using asyncio and aiohttp" },
   { id := 4, language := "python", title := "Decorator: Retry with Backoff",
     code := "import functools\nimport time\nfrom typing import Callable, TypeVar\n\nT = TypeVar(\x27T\x27)\n\ndef retry(max_attempts: int = 3, backoff: float = 1.0):\n    def decorator(func: Callable[..., T]) -> Callable[..., T]:\n        @functools.wraps(func)\n        def wrapper(*args, **kwargs) -> T:\n            for attempt in range(max_attempts):\n                try:\n                    return func(*args, **kwargs)\n                except Exception as e:\n                    if attempt == max_attempts - 1:\n                        raise\n                    time.sleep(backoff * (2 ** attempt))\n            raise RuntimeError(\"Unreachable\")\n        return wrapper\n    return decorator",
     description := "A decorator for automatic retry with exponential backoff" }]

/-- Snippet list for key `api`. -/
def apiTemplates : List CodeSnippet :=
  [{ id := 5, language := "typescript", title := "REST API Client Class",
     code := "class APIClient \x7b\n  private baseURL: string;\n  private headers: HeadersInit;\n\n  constructor(baseURL: string, apiKey?: string) \x7b\n    this.baseURL = baseURL;\n    this.headers = \x7b\n      \x27Content-Type\x27: \x27application/json\x27,\n      ...(apiKey && \x7b \x27Authorization\x27: \x60Bearer $\x7bapiKey\x7d\x60 \x7d),\n    \x7d;\n  \x7d\n\n  async get<T>(endpoint: string): Promise<T> \x7b\n    const res = await fetch(\x60$\x7bthis.baseURL\x7d$\x7bendpoint\x7d\x60, \x7b\n      headers: this.headers,\n    \x7d);\n    if (!res.ok) throw new Error(res.statusText);\n    return res.json();\n  \x7d\n\n  async post<T>(endpoint: string, data: unknown): Promise<T> \x7b\n    const res = await fetch(\x60$\x7bthis.baseURL\x7d$\x7bendpoint\x7d\x60, \x7b\n      method: \x27POST\x27,\n      headers: this.headers,\n      body: JSON.stringify(data),\n    \x7d);\n    if (!res.ok) throw new Error(res.statusText);\n    return res.json();\n  \x7d\n\x7d",
     description := "A reusable typed API client for REST endpoints" },
   { id := 6, language := "typescript", title := "Rate Limiter Utility",
     code := "class RateLimiter \x7b\n  private tokens: number;\n  private lastRefill: number;\n  private readonly maxTokens: number;\n  private readonly refillRate: number; // tokens per second\n\n  constructor(maxTokens: number, refillRate: number) \x7b\n    this.maxTokens = maxTokens;\n    this.tokens = maxTokens;\n    this.refillRate = refillRate;\n    this.lastRefill = Date.now();\n  \x7d\n\n  async acquire(): Promise<void> \x7b\n    this.refill();\n    if (this.tokens < 1) \x7b\n      const waitTime = (1 / this.refillRate) * 1000;\n      await new Promise(r => setTimeout(r, waitTime));\n      return this.acquire();\n    \x7d\n    this.tokens--;\n  \x7d\n\n  private refill(): void \x7b\n    const now = Date.now();\n    const elapsed = (now - this.lastRefill) / 1000;\n    this.tokens = Math.min(this.maxTokens,\n      this.tokens + elapsed * this.refillRate);\n    this.lastRefill = now;\n  \x7d\n\x7d",
     description := "Token bucket rate limiter for API calls" }]

/-- The Template Store of the coding panel, `codeTemplates : Record<string, CodeSnippet[]>`. -/
def codeTemplates (key : String) : Option (List CodeSnippet) :=
  if key = "react" then some reactTemplates
  else if key = "python" then some pythonTemplates
  else if key = "api" then some apiTemplates
  else none

/-- Component state of `CodingPanel` (its five `useState` hooks). -/
structure CodingState where
  selectedLanguage : String
  generatedCode : Option CodeSnippet
  isGenerating : Bool
  copied : Bool
  customPrompt : String
  deriving DecidableEq

/-- Synchronous part of `generateCode`: `setIsGenerating(true)` and
`setGeneratedCode(null)` before the `setTimeout` is scheduled. -/
def codeGenStart (s : CodingState) : CodingState :=
  { s with isGenerating := true, generatedCode := none }

/-- The `setTimeout` callback of `generateCode`: select a random snippet from
the snippet list of the current language and publish it as the single current snippet.
Note the callback never reads `customPrompt`.  `none` models the crash on a
language key absent from the Template Store. -/
def codeSettle (s : CodingState) (r : ℚ) : Option CodingState :=
  match codeTemplates s.selectedLanguage with
  | none => none
  | some templates =>
    match selectUniform templates r with
    | none => none
    | some randomCode =>
      some { s with generatedCode := some randomCode, isGenerating := false }

/-! ## Timer lifecycle (claim C2)

`generateIdea` and `performSearch` both call `setTimeout` without keeping the
returned handle, and neither `IdeaGenerator` nor `ResearchPanel` registers a
`useEffect` cleanup or ever calls `clearTimeout`.  We model the host timer
queue as a list of timer ids. -/

/-- Scheduling the `setTimeout` of `generateIdea`: the fresh timer id `t`
joins the host queue; the component keeps no handle to it. -/
def startIdeaTimeout (pendingTimers : List Nat) (t : Nat) : List Nat :=
  t :: pendingTimers

/-- Timer ids cancelled when `IdeaGenerator` unmounts: the component has no
`useEffect` cleanup and contains no `clearTimeout` call, so the list is empty. -/
def ideaTimersClearedOnUnmount : List Nat := []

/-- Effect of unmounting `IdeaGenerator` on the host timer queue: only ids
in `ideaTimersClearedOnUnmount` are removed. -/
def unmountIdeaGenerator (pendingTimers : List Nat) : List Nat :=
  pendingTimers.filter (fun t => !ideaTimersClearedOnUnmount.contains t)

/-- Scheduling the `setTimeout` of `performSearch`; as above, no handle kept. -/
def startSearchTimeout (pendingTimers : List Nat) (t : Nat) : List Nat :=
  t :: pendingTimers

/-- Timer ids cancelled when `ResearchPanel` unmounts: none (no `useEffect`
cleanup, no `clearTimeout` call anywhere in the component). -/
def researchTimersClearedOnUnmount : List Nat := []

/-- Effect of unmounting `ResearchPanel` on the host timer queue. -/
def unmountResearchPanel (pendingTimers : List Nat) : List Nat :=
  pendingTimers.filter (fun t => !researchTimersClearedOnUnmount.contains t)

/-- Sample session-log entry used to instantiate the log theorems. -/
def sampleIdea : GeneratedIdea :=
  { id := 42,
    text := "An AI-powered tool that automatically generates documentation from code comments",
    category := "tech", timestamp := 42, saved := false }

/-! ## Helper lemmas -/

/-- The shared selection step always lands inside the list when the draw is
in `[0,1)` and the list is non-empty. -/
theorem selectUniform_mem {α : Type} (l : List α) (r : ℚ) (h0 : 0 ≤ r) (h1 : r < 1)
    (hl : 0 < l.length) : ∃ a, selectUniform l r = some a ∧ a ∈ l := by
  have hn : (0 : ℚ) < (l.length : ℚ) := by exact_mod_cast hl
  have hlt : ⌊r * (l.length : ℚ)⌋ < (l.length : ℤ) := by
    rw [Int.floor_lt]
    push_cast
    exact mul_lt_of_lt_one_left hn h1
  have hidx : Int.toNat ⌊r * (l.length : ℚ)⌋ < l.length := by omega
  refine ⟨l.get ⟨_, hidx⟩, ?_, l.get_mem _ _⟩
  simp [selectUniform, List.get?_eq_get hidx]

/-- Every category list in the idea-panel Template Store has 8 entries. -/
theorem ideaTemplates_size {key : String} {l : List String}
    (h : ideaTemplates key = some l) : l.length = 8 := by
  unfold ideaTemplates at h
  split_ifs at h <;>
    first
      | exact Option.noConfusion h
      | (cases h; rfl)

/-- Every language list in the coding-panel Template Store has 2 entries. -/
theorem codeTemplates_size {key : String} {ts : List CodeSnippet}
    (h : codeTemplates key = some ts) : ts.length = 2 := by
  unfold codeTemplates at h
  split_ifs at h <;>
    first
      | exact Option.noConfusion h
      | (cases h; rfl)

/-- Dropping a satisfied predicate from a list that satisfies it everywhere
drops everything. -/
theorem dropWhile_eq_nil_of_all {α : Type} {p : α → Bool} {l : List α}
    (h : l.all p = true) : l.dropWhile p = [] := by
  induction l with
  | nil => rfl
  | cons a t ih =>
    simp only [List.all_cons, Bool.and_eq_true] at h
    simp [List.dropWhile_cons, h.1, ih h.2]

/-- A string made only of whitespace trims to the empty string. -/
theorem jsTrim_eq_empty_of_whitespace {s : String}
    (h : s.data.all Char.isWhitespace = true) : jsTrim s = "" := by
  unfold jsTrim
  rw [dropWhile_eq_nil_of_all h]
  rfl

/-! ## Claims -/

/-- C1: for every category key present in the idea-panel Template Store, the
selection step of `generateIdea` returns a member of that category's list
for every draw in `[0,1)`; the `tech` category has exactly its 8 listed
entries, so repeated selections can only ever produce one of those 8 strings. -/
theorem c1_template_store_membership :
    (∀ (key : String) (l : List String), ideaTemplates key = some l →
      ∀ r : ℚ, 0 ≤ r → r < 1 → ∃ a, selectUniform l r = some a ∧ a ∈ l) ∧
    ideaTemplates "tech" = some techIdeas ∧ techIdeas.length = 8 := by
  refine ⟨?_, rfl, rfl⟩
  intro key l h r h0 h1
  exact selectUniform_mem l r h0 h1 (by rw [ideaTemplates_size h]; norm_num)

/-- Witness for C1 at category `tech` and draw `1/2`. -/
theorem c1_template_store_membership_witness :
    ideaTemplates "tech" = some techIdeas ∧
    (∃ a, selectUniform techIdeas (1/2) = some a ∧ a ∈ techIdeas) :=
  ⟨c1_template_store_membership.2.1,
   c1_template_store_membership.1 "tech" techIdeas c1_template_store_membership.2.1
     (1/2) (by norm_num) (by norm_num)⟩

/-- C2 (code violates the claim): the `setTimeout` started by `generateIdea`
resp. `performSearch` is still in the host timer queue after the hosting
panel unmounts, because neither component stores the timer handle nor
registers any cleanup that would call `clearTimeout`. -/
theorem c2_timer_survives_unmount (pendingTimers : List Nat) (t : Nat) :
    t ∈ unmountIdeaGenerator (startIdeaTimeout pendingTimers t) ∧
    t ∈ unmountResearchPanel (startSearchTimeout pendingTimers t) := by
  constructor <;>
    simp [unmountIdeaGenerator, unmountResearchPanel, startIdeaTimeout,
      startSearchTimeout, ideaTimersClearedOnUnmount, researchTimersClearedOnUnmount]

/-- C4: triggering `performSearch` with an empty or whitespace-only query is
a complete no-op: the state (searching flag, results, pending timer) is
unchanged. -/
theorem c4_blank_query_noop (s : ResearchState)
    (h : s.query.data.all Char.isWhitespace = true) : performSearch s = s := by
  simp [performSearch, jsTrim_eq_empty_of_whitespace h]

/-- Witness for C4 at a whitespace-only query. -/
theorem c4_blank_query_noop_witness :
    (ResearchState.mk "  " false [] none false).query.data.all Char.isWhitespace = true ∧
    performSearch (ResearchState.mk "  " false [] none false) =
      ResearchState.mk "  " false [] none false :=
  ⟨by decide, c4_blank_query_noop _ (by decide)⟩

/-- C6: toggling the saved flag of the same id twice restores the session log
exactly (involution). -/
theorem c6_toggleSaved_involution (ideas : List GeneratedIdea) (tid : Nat) :
    toggleSaved (toggleSaved ideas tid) tid = ideas := by
  induction ideas with
  | nil => rfl
  | cons i t ih =>
    simp only [toggleSaved, List.map_cons] at ih ⊢
    by_cases h : i.id = tid
    · simp [h, Bool.not_not, ih]
      rw [← h]
    · simp [h, ih]

/-- C7: prepending an entry and then deleting its id leaves a log with no
entry of that id, and the clear-all handler empties the log unconditionally. -/
theorem c7_append_remove_clear (ideas : List GeneratedIdea) (e : GeneratedIdea) :
    e.id ∉ (deleteIdea (prependIdea ideas e) e.id).map (fun x => x.id) ∧
    clearAllIdeas ideas = [] := by
  refine ⟨?_, rfl⟩
  intro hmem
  rcases List.mem_map.mp hmem with ⟨x, hx, hid⟩
  have hkeep := List.of_mem_filter hx
  simp [hid] at hkeep

/-- Witness for C7 on a one-entry log. -/
theorem c7_append_remove_clear_witness :
    sampleIdea.id ∉ (deleteIdea (prependIdea [] sampleIdea) sampleIdea.id).map (fun x => x.id) ∧
    clearAllIdeas [] = [] :=
  c7_append_remove_clear [] sampleIdea

/-- C3 counterexample: with the context "for students" supplied, the coding
panel settles to the plain selected snippet, not to the snippet with the
" — customized for: ..." annotation appended, because `generateCode` never
reads `customPrompt`. -/
theorem c3_counterexample :
    (codeSettle (codeGenStart (CodingState.mk "react" none false false "for students")) 0).bind
        (fun s1 => s1.generatedCode.map (fun c => c.code)) ≠
    (selectUniform reactTemplates 0).map
        (fun c => c.code ++ " — customized for: \"for students\"") := by
  obtain ⟨c, hc, -⟩ := selectUniform_mem reactTemplates 0 (by norm_num) (by norm_num) (by decide)
  have hset : codeSettle (codeGenStart (CodingState.mk "react" none false false "for students")) 0 =
      some (CodingState.mk "react" (some c) false false "for students") := by
    simp [codeSettle, codeGenStart, show codeTemplates "react" = some reactTemplates from rfl, hc]
  intro h
  rw [hset, hc] at h
  simp only [Option.bind, Option.map, Option.some.injEq] at h
  have hlen := congrArg String.length h
  rw [String.length_append] at hlen
  have hpos : 0 < (" — customized for: \"for students\"" : String).length := by decide
  omega

/-- C3 (amended): in the idea panel a non-empty context string is appended to
the selected template by pure string concatenation, in the exact format
`<content> — customized for: "<context>"`; the coding panel also exposes a
context field but `generateCode` ignores it entirely: the settled snippet is
exactly the selected template, unmodified. -/
theorem c3_context_append_amended :
    (∀ (s : IdeaState) (l : List String) (now : Nat) (r : ℚ),
      ideaTemplates s.selectedCategory = some l → 0 ≤ r → r < 1 → s.customPrompt ≠ "" →
      ∃ t s', selectUniform l r = some t ∧ ideaSettle (ideaGenStart s) now r = some s' ∧
        s'.ideas.head?.map (fun i => i.text) =
          some (t ++ " — customized for: \"" ++ s.customPrompt ++ "\"")) ∧
    (∀ (s : CodingState) (ts : List CodeSnippet) (r : ℚ),
      codeTemplates s.selectedLanguage = some ts → 0 ≤ r → r < 1 →
      ∃ c s', selectUniform ts r = some c ∧ codeSettle (codeGenStart s) r = some s' ∧
        s'.generatedCode = some c) := by
  constructor
  · intro s l now r hl h0 h1 hne
    obtain ⟨t, ht, -⟩ := selectUniform_mem l r h0 h1 (by rw [ideaTemplates_size hl]; norm_num)
    refine ⟨t, { s with
        ideas := { id := now,
                   text := t ++ " — customized for: \"" ++ s.customPrompt ++ "\"",
                   category := s.selectedCategory, timestamp := now, saved := false } :: s.ideas,
        isGenerating := false }, ht, ?_, by simp⟩
    simp [ideaSettle, ideaGenStart, hl, ht, hne]
  · intro s ts r hts h0 h1
    obtain ⟨c, hc, -⟩ := selectUniform_mem ts r h0 h1 (by rw [codeTemplates_size hts]; norm_num)
    refine ⟨c, { s with generatedCode := some c, isGenerating := false }, hc, ?_, rfl⟩
    simp [codeSettle, codeGenStart, hts, hc]

/-- Witness for the amended C3: idea panel with context "for students" at
draw 0, coding panel with a non-empty context at draw 0. -/
theorem c3_context_append_amended_witness :
    ideaTemplates "tech" = some techIdeas ∧ ("for students" : String) ≠ "" ∧
    (∃ t s', selectUniform techIdeas 0 = some t ∧
      ideaSettle (ideaGenStart (IdeaState.mk "tech" [] false "for students")) 7 0 = some s' ∧
      s'.ideas.head?.map (fun i => i.text) =
        some (t ++ " — customized for: \"" ++ "for students" ++ "\"")) ∧
    (∃ c s', selectUniform reactTemplates 0 = some c ∧
      codeSettle (codeGenStart (CodingState.mk "react" none false false "for students")) 0 = some s' ∧
      s'.generatedCode = some c) :=
  ⟨rfl, by decide,
   c3_context_append_amended.1 (IdeaState.mk "tech" [] false "for students") techIdeas 7 0
     rfl (by norm_num) (by norm_num) (by decide),
   c3_context_append_amended.2 (CodingState.mk "react" none false false "for students")
     reactTemplates 0 rfl (by norm_num) (by norm_num)⟩

/-- C5: every settled research search publishes between 3 and 5 results, all
drawn from the fixed mock pool, with no id occurring twice. -/
theorem c5_result_set_shape (s : ResearchState) (shuffled : List ResearchResult) (r : ℚ)
    (hperm : shuffled.Perm mockResearchResults) (h0 : 0 ≤ r) (h1 : r < 1) :
    (3 ≤ (searchSettle s shuffled r).results.length ∧
      (searchSettle s shuffled r).results.length ≤ 5) ∧
    (∀ x ∈ (searchSettle s shuffled r).results, x ∈ mockResearchResults) ∧
    ((searchSettle s shuffled r).results.map (fun x => x.id)).Nodup := by
  have hlen : shuffled.length = 5 := by
    rw [hperm.length_eq]; rfl
  have hfl : ⌊r * 3⌋ < (3 : ℤ) := by
    rw [Int.floor_lt]
    push_cast
    exact mul_lt_of_lt_one_left (by norm_num) h1
  have hk : 3 + Int.toNat ⌊r * 3⌋ ≤ 5 := by omega
  refine ⟨?_, ?_, ?_⟩
  · simp only [searchSettle, List.length_take]
    omega
  · intro x hx
    exact hperm.subset (List.mem_of_mem_take hx)
  · have hnd : (shuffled.map (fun x => x.id)).Nodup :=
      (hperm.map (fun x => x.id)).nodup_iff.mpr (by decide)
    simp only [searchSettle, List.map_take]
    exact hnd.sublist (List.take_sublist _ _)

/-- Witness for C5 with the identity shuffle and draw 0. -/
theorem c5_result_set_shape_witness :
    mockResearchResults.Perm mockResearchResults ∧
    ((3 ≤ (searchSettle initResearch mockResearchResults 0).results.length ∧
      (searchSettle initResearch mockResearchResults 0).results.length ≤ 5) ∧
    (∀ x ∈ (searchSettle initResearch mockResearchResults 0).results,
      x ∈ mockResearchResults) ∧
    ((searchSettle initResearch mockResearchResults 0).results.map (fun x => x.id)).Nodup) :=
  ⟨List.Perm.refl _,
   c5_result_set_shape initResearch mockResearchResults 0 (List.Perm.refl _)
     (by norm_num) (by norm_num)⟩

/-- C8: after two consecutive settled `generateCode` calls the read model
holds exactly the snippet selected by the second call and nothing else — the
first snippet is replaced entirely and the `Option`-typed read model contains
exactly one snippet. -/
theorem c8_single_current_snippet (s : CodingState) (ts : List CodeSnippet) (r1 r2 : ℚ)
    (hts : codeTemplates s.selectedLanguage = some ts)
    (h10 : 0 ≤ r1) (h11 : r1 < 1) (h20 : 0 ≤ r2) (h21 : r2 < 1) :
    ∃ s1 s2 c2, codeSettle (codeGenStart s) r1 = some s1 ∧
      codeSettle (codeGenStart s1) r2 = some s2 ∧
      selectUniform ts r2 = some c2 ∧
      s2.generatedCode = some c2 ∧ s2.generatedCode.toList.length = 1 := by
  have hpos : 0 < ts.length := by rw [codeTemplates_size hts]; norm_num
  obtain ⟨c1, hc1, -⟩ := selectUniform_mem ts r1 h10 h11 hpos
  obtain ⟨c2, hc2, -⟩ := selectUniform_mem ts r2 h20 h21 hpos
  refine ⟨{ s with generatedCode := some c1, isGenerating := false },
          { s with generatedCode := some c2, isGenerating := false }, c2, ?_, ?_, hc2, rfl, rfl⟩
  · simp [codeSettle, codeGenStart, hts, hc1]
  · simp [codeSettle, codeGenStart, hts, hc2]

/-- Witness for C8 in the coding panel mount state, draws 0 and 1/2. -/
theorem c8_single_current_snippet_witness :
    codeTemplates "react" = some reactTemplates ∧
    (∃ s1 s2 c2,
      codeSettle (codeGenStart (CodingState.mk "react" none false false "")) 0 = some s1 ∧
      codeSettle (codeGenStart s1) (1/2) = some s2 ∧
      selectUniform reactTemplates (1/2) = some c2 ∧
      s2.generatedCode = some c2 ∧ s2.generatedCode.toList.length = 1) :=
  ⟨rfl,
   c8_single_current_snippet (CodingState.mk "react" none false false "") reactTemplates 0 (1/2)
     rfl (by norm_num) (by norm_num) (by norm_num) (by norm_num)⟩

/-- C9: the settled result set never depends on the query text: two searches
with different non-blank queries but the same shuffle and the same size draw
publish identical result sets. -/
theorem c9_results_independent_of_query (s : ResearchState) (shuffled : List ResearchResult)
    (r : ℚ) (q1 q2 : String) (h1 : jsTrim q1 ≠ "") (h2 : jsTrim q2 ≠ "") :
    (searchSettle (performSearch { s with query := q1 }) shuffled r).results =
    (searchSettle (performSearch { s with query := q2 }) shuffled r).results := by
  simp [performSearch, searchSettle, h1, h2]

/-- Witness for C9 with the queries "quantum" and "ai". -/
theorem c9_results_independent_of_query_witness :
    jsTrim "quantum" ≠ "" ∧ jsTrim "ai" ≠ "" ∧
    (searchSettle (performSearch { initResearch with query := "quantum" })
        mockResearchResults 0).results =
    (searchSettle (performSearch { initResearch with query := "ai" })
        mockResearchResults 0).results :=
  ⟨by decide, by decide,
   c9_results_independent_of_query initResearch mockResearchResults 0 "quantum" "ai"
     (by decide) (by decide)⟩

/-- C10: in every reachable research-panel state, while a search is in flight
the visible result list is empty — `performSearch` clears the results
synchronously before scheduling the delay, and settling turns the flag off in
the same step that publishes results. -/
theorem c10_searching_implies_no_results (s : ResearchState)
    (hr : ResearchReachable s) (hs : s.isSearching = true) : s.results = [] := by
  induction hr with
  | refl => exact absurd hs (by decide)
  | tail hsteps step ih =>
    cases step with
    | setQuery q => exact ih hs
    | search =>
      rename_i b
      simp only [performSearch] at hs ⊢
      by_cases hb : jsTrim b.query = ""
      · rw [if_pos hb] at hs ⊢
        exact ih hs
      · rw [if_neg hb]
    | settle shuffled r hperm h0 h1 hp =>
      exact absurd hs (by simp [searchSettle])
    | expand e => exact ih hs

/-- Witness for C10: the state reached by typing "ai" and clicking SEARCH is
reachable, is searching, and displays no results. -/
theorem c10_searching_implies_no_results_witness :
    (performSearch { initResearch with query := "ai" }).results = [] :=
  c10_searching_implies_no_results (performSearch { initResearch with query := "ai" })
    (Relation.ReflTransGen.tail
      (Relation.ReflTransGen.single (RStep.setQuery initResearch "ai"))
      (RStep.search { initResearch with query := "ai" }))
    (by decide)

end NeuralForge
